import Mathlib

/-!
Verification of the Compass indicator / labeling / backtest pipeline.

The definitions below are a shallow embedding of the Python reference
scripts `scripts/train_multi_timeframe.py` (prefix `mt_`),
`scripts/train_lstm_signal.py` (prefix `lstm_`) and
`scripts/backtest_models.py` (evaluator definitions).  Machine floating
point is modelled by exact rationals; list indexing `l[i]` is modelled by
`List.getD l i 0`, and the Python slice `l[a:b]` by `sliceD l a b`.
-/

set_option maxRecDepth 40000

namespace Compass

/-- Mean of a list of rationals, modelling `np.mean`; the empty list maps
to `0` (numpy would produce NaN there — the checked variants below track
that case explicitly). -/
def meanQ (l : List ℚ) : ℚ := l.sum / l.length

/-- Successive differences, modelling `np.diff`. -/
def diffQ (l : List ℚ) : List ℚ :=
  (List.range (l.length - 1)).map (fun j => l.getD (j + 1) 0 - l.getD j 0)

/-- Python slice `l[a:b]` for natural bounds. -/
def sliceD (l : List ℚ) (a b : Nat) : List ℚ := (l.drop a).take (b - a)

/-- Maximum of a list, modelling `np.max` on a non-empty array; `0` on the
empty list (numpy would raise there). -/
def maxQ (l : List ℚ) : ℚ :=
  match l with
  | [] => 0
  | x :: xs => xs.foldl max x

/-- Minimum of a list, modelling `np.min` on a non-empty array; `0` on the
empty list (numpy would raise there). -/
def minQ (l : List ℚ) : ℚ :=
  match l with
  | [] => 0
  | x :: xs => xs.foldl min x

/-- Computable stand-in for the real square root used by `np.std`: exact
whenever the true square root of `q` is rational (in particular
`ratSqrt 0 = 0`), positive whenever `q` is positive, and `0` for `q ≤ 0`.
The development only uses its value through the degenerate branches
(`q = 0`) and through sign information, where it agrees with the real
square root. -/
def ratSqrt (q : ℚ) : ℚ := (Nat.sqrt (q.num.toNat * q.den) : ℚ) / (q.den : ℚ)

/-- Round-half-to-even to the nearest integer, modelling Python `round`. -/
def roundHalfEven (x : ℚ) : ℤ :=
  let f : ℤ := ⌊x⌋
  let r : ℚ := x - f
  if r < 1 / 2 then f
  else if r > 1 / 2 then f + 1
  else if f % 2 = 0 then f else f + 1

/-- Python `round(x, 2)`. -/
def roundTo2 (x : ℚ) : ℚ := (roundHalfEven (100 * x) : ℚ) / 100

/-! ### Label generation

`assignLabel` is the labeling policy shared by
`train_multi_timeframe.create_labels` (threshold `2.0`) and
`train_lstm_signal.create_sequences` (threshold `0.15`). -/

/-- Forward return in percent:
`(closes[i + look] - closes[i]) / closes[i] * 100`. -/
def price_change (closes : List ℚ) (i look : Nat) : ℚ :=
  (closes.getD (i + look) 0 - closes.getD i 0) / closes.getD i 0 * 100

/-- The label branch shared by both training scripts:
`2` (BUY) when the forward return exceeds `t`, `0` (SELL) when it is below
`-t`, `1` (HOLD) otherwise. -/
def assignLabel (closes : List ℚ) (i look : Nat) (t : ℚ) : Nat :=
  if price_change closes i look > t then 2
  else if price_change closes i look < -t then 0
  else 1

/-- Embedding of `train_multi_timeframe.create_labels`: one label per
anchor `i ∈ [200, len(closes) - lookahead)`, threshold `2.0`. -/
def create_labels (closes : List ℚ) (lookahead : Nat) : List Nat :=
  (List.range (closes.length - lookahead - 200)).map
    (fun k => assignLabel closes (200 + k) lookahead 2)

/-! ### Actual-direction derivation (backtest_models.py)

The expression `1 if data[i+1, 0] > data[i, 0] else -1` appears verbatim in
`ai_strategy`, `heuristic_strategy` and `buyhold_strategy`. -/

/-- Realized direction at index `i`: `+1` when the next close is strictly
higher, `-1` otherwise (ties included). -/
def actualDirection (closes : List ℚ) (i : Nat) : ℤ :=
  if closes.getD (i + 1) 0 > closes.getD i 0 then 1 else -1

/-- The actuals list built by each strategy loop in `backtest_models.py`
(`for i in range(30, len(data) - 1)`). -/
def strategyActuals (closes : List ℚ) : List ℤ :=
  (List.range (closes.length - 1 - 30)).map (fun k => actualDirection closes (30 + k))

/-! ### Strategy evaluator (backtest_models.py) -/

/-- One entry of the `results` list written by `calculate_metrics`. -/
structure Metrics where
  asset : String
  strategy : String
  accuracy : ℚ
  total_return : ℚ
  num_predictions : Nat
deriving Repr, DecidableEq

/-- Embedding of `backtest_models.calculate_metrics`: `None` when the
prediction sequence is absent or empty, otherwise accuracy
`(correct / len) * 100` and the flat `±0.01`-per-trade simulated return,
both rounded to two decimals as in the script's `round(x, 2)`. -/
def calculate_metrics (predictions : Option (List ℤ)) (actuals : List ℤ)
    (strategy_name asset : String) : Option Metrics :=
  match predictions with
  | none => none
  | some preds =>
    if preds.length = 0 then none
    else
      let pairs := preds.zip actuals
      let correct := (pairs.filter (fun pa => decide (pa.1 = pa.2))).length
      let accuracy := ((correct : ℚ) / (preds.length : ℚ)) * 100
      let returns := pairs.map (fun pa => if pa.1 = pa.2 then (1 : ℚ) / 100 else -(1 / 100))
      let total_return := returns.sum * 100
      some { asset := asset, strategy := strategy_name,
             accuracy := roundTo2 accuracy,
             total_return := roundTo2 total_return,
             num_predictions := preds.length }

/-- Number of pairs whose predicted direction equals the actual one. -/
def countCorrect (ps : List (ℤ × ℤ)) : Nat :=
  (ps.filter (fun pa => decide (pa.1 = pa.2))).length

/-- One (asset, strategy) evaluation run of `backtest_models.main`. -/
structure Run where
  preds : Option (List ℤ)
  actuals : List ℤ
  strategy : String
  asset : String

/-- The `results` list assembled in `backtest_models.main`: a metrics
record is appended only when `calculate_metrics` produced one. -/
def collectResults (runs : List Run) : List Metrics :=
  runs.filterMap (fun r => calculate_metrics r.preds r.actuals r.strategy r.asset)

/-- Per-strategy aggregate accuracy in `backtest_models.main`:
`df[df.strategy == strat].accuracy.mean()`. -/
def aggAccuracy (results : List Metrics) (strat : String) : ℚ :=
  meanQ ((results.filter (fun m => decide (m.strategy = strat))).map (fun m => m.accuracy))

/-- Per-strategy aggregate simulated return in `backtest_models.main`:
`df[df.strategy == strat].total_return.mean()`. -/
def aggReturn (results : List Metrics) (strat : String) : ℚ :=
  meanQ ((results.filter (fun m => decide (m.strategy = strat))).map (fun m => m.total_return))

/-- Comparison definition written from the spec's words, not from the code:
a pooled recomputation of accuracy over the combined samples of several
assets.  The spec states the code's aggregation is NOT this. -/
def pooledAccuracy (runs : List (List (ℤ × ℤ))) : ℚ :=
  100 * ((runs.map countCorrect).sum : ℚ) / ((runs.map List.length).sum : ℚ)

/-! ### Indicator engine, train_multi_timeframe.py (`mt_` prefix)

Per-index embedding of the body of `calculate_features`'s loop
(`for i in range(200, len(closes))`), one definition per local variable. -/

/-- The 14 close deltas `np.diff(closes[i-14:i+1])`. -/
def mt_deltas (closes : List ℚ) (i : Nat) : List ℚ := diffQ (sliceD closes (i - 14) (i + 1))

/-- Elementwise `np.maximum(diff, 0)`. -/
def mt_gains (closes : List ℚ) (i : Nat) : List ℚ := (mt_deltas closes i).map (fun d => max d 0)

/-- Elementwise `np.maximum(-diff, 0)`. -/
def mt_losses (closes : List ℚ) (i : Nat) : List ℚ :=
  (mt_deltas closes i).map (fun d => max (-d) 0)

/-- `avg_gain = np.mean(gains) if len(gains) > 0 else 0`. -/
def mt_avg_gain (closes : List ℚ) (i : Nat) : ℚ :=
  if 0 < (mt_gains closes i).length then meanQ (mt_gains closes i) else 0

/-- `avg_loss = np.mean(losses) if len(losses) > 0 else 0`. -/
def mt_avg_loss (closes : List ℚ) (i : Nat) : ℚ :=
  if 0 < (mt_losses closes i).length then meanQ (mt_losses closes i) else 0

/-- `rs = avg_gain / avg_loss if avg_loss != 0 else 0`. -/
def mt_rs (closes : List ℚ) (i : Nat) : ℚ :=
  if mt_avg_loss closes i ≠ 0 then mt_avg_gain closes i / mt_avg_loss closes i else 0

/-- `rsi = 100 - (100 / (1 + rs))`. -/
def mt_rsi (closes : List ℚ) (i : Nat) : ℚ := 100 - 100 / (1 + mt_rs closes i)

/-- `macd = (ema12 - ema26) / closes[i] if closes[i] != 0 else 0` where the
"EMAs" are the plain means of the trailing 12 and 26 closes. -/
def mt_macd (closes : List ℚ) (i : Nat) : ℚ :=
  if closes.getD i 0 ≠ 0 then
    (meanQ (sliceD closes (i - 11) (i + 1)) - meanQ (sliceD closes (i - 25) (i + 1)))
      / closes.getD i 0
  else 0

/-- `sma_20 = np.mean(closes[i-19:i+1])`. -/
def mt_sma20 (closes : List ℚ) (i : Nat) : ℚ := meanQ (sliceD closes (i - 19) (i + 1))

/-- `std_20 = np.std(closes[i-19:i+1])` (population standard deviation),
with `ratSqrt` standing in for the real square root. -/
def mt_std20 (closes : List ℚ) (i : Nat) : ℚ :=
  ratSqrt (meanQ ((sliceD closes (i - 19) (i + 1)).map (fun x => (x - mt_sma20 closes i) ^ 2)))

/-- `bb_upper = sma_20 + 2 * std_20`. -/
def mt_bb_upper (closes : List ℚ) (i : Nat) : ℚ := mt_sma20 closes i + 2 * mt_std20 closes i

/-- `bb_lower = sma_20 - 2 * std_20`. -/
def mt_bb_lower (closes : List ℚ) (i : Nat) : ℚ := mt_sma20 closes i - 2 * mt_std20 closes i

/-- `bb_width = (bb_upper - bb_lower) / closes[i] if closes[i] != 0 else 0`. -/
def mt_bb_width (closes : List ℚ) (i : Nat) : ℚ :=
  if closes.getD i 0 ≠ 0 then
    (mt_bb_upper closes i - mt_bb_lower closes i) / closes.getD i 0
  else 0

/-- `bb_position = (closes[i] - bb_lower) / (bb_upper - bb_lower)` guarded
to the neutral `0.5` when `bb_upper - bb_lower == 0`. -/
def mt_bb_position (closes : List ℚ) (i : Nat) : ℚ :=
  if mt_bb_upper closes i - mt_bb_lower closes i ≠ 0 then
    (closes.getD i 0 - mt_bb_lower closes i) / (mt_bb_upper closes i - mt_bb_lower closes i)
  else 1 / 2

/-- `sma_20_50 = 1.0 if mean(closes[i-19:i+1]) > mean(closes[i-49:i+1]) else 0.0`. -/
def mt_sma_20_50 (closes : List ℚ) (i : Nat) : ℚ :=
  if meanQ (sliceD closes (i - 19) (i + 1)) > meanQ (sliceD closes (i - 49) (i + 1)) then 1 else 0

/-- `sma_50_200 = 1.0 if mean(closes[i-49:i+1]) > mean(closes[i-199:i+1]) else 0.0`. -/
def mt_sma_50_200 (closes : List ℚ) (i : Nat) : ℚ :=
  if meanQ (sliceD closes (i - 49) (i + 1)) > meanQ (sliceD closes (i - 199) (i + 1)) then 1 else 0

/-- `momentum = (closes[i] - closes[i-10]) / closes[i-10]`, guarded to `0`
on a zero denominator. -/
def mt_momentum (closes : List ℚ) (i : Nat) : ℚ :=
  if closes.getD (i - 10) 0 ≠ 0 then
    (closes.getD i 0 - closes.getD (i - 10) 0) / closes.getD (i - 10) 0
  else 0

/-- `vol_ratio = volumes[i] / np.mean(volumes[i-19:i+1])`, guarded to the
neutral `1.0` on a zero denominator. -/
def mt_vol_ratio (volumes : List ℚ) (i : Nat) : ℚ :=
  if meanQ (sliceD volumes (i - 19) (i + 1)) ≠ 0 then
    volumes.getD i 0 / meanQ (sliceD volumes (i - 19) (i + 1))
  else 1

/-- True range at index `j`:
`max(highs[j] - lows[j], abs(highs[j] - closes[j-1]), abs(lows[j] - closes[j-1]))`. -/
def trueRange (highs lows closes : List ℚ) (j : Nat) : ℚ :=
  max (highs.getD j 0 - lows.getD j 0)
    (max |highs.getD j 0 - closes.getD (j - 1) 0| |lows.getD j 0 - closes.getD (j - 1) 0|)

/-- The `atr` of `train_multi_timeframe.calculate_features`:
`tr / closes[i] if closes[i] != 0 else 0` where `tr` is the single current
candle's true range (the trailing-window mean appears only in the
`train_lstm_signal` variant, see `lstm_atr`). -/
def mt_atr (highs lows closes : List ℚ) (i : Nat) : ℚ :=
  if closes.getD i 0 ≠ 0 then trueRange highs lows closes i / closes.getD i 0 else 0

/-- `high_14 = np.max(highs[i-13:i+1])`. -/
def mt_high14 (highs : List ℚ) (i : Nat) : ℚ := maxQ (sliceD highs (i - 13) (i + 1))

/-- `low_14 = np.min(lows[i-13:i+1])`. -/
def mt_low14 (lows : List ℚ) (i : Nat) : ℚ := minQ (sliceD lows (i - 13) (i + 1))

/-- `stochastic = ((closes[i] - low_14) / (high_14 - low_14)) * 100`,
guarded to the neutral `50` on a zero range. -/
def mt_stochastic (highs lows closes : List ℚ) (i : Nat) : ℚ :=
  if mt_high14 highs i - mt_low14 lows i ≠ 0 then
    (closes.getD i 0 - mt_low14 lows i) / (mt_high14 highs i - mt_low14 lows i) * 100
  else 50

/-- `obv_change = (volumes[i] - volumes[i-5]) / volumes[i-5]`, guarded to
`0` on a zero denominator. -/
def mt_obv_change (volumes : List ℚ) (i : Nat) : ℚ :=
  if volumes.getD (i - 5) 0 ≠ 0 then
    (volumes.getD i 0 - volumes.getD (i - 5) 0) / volumes.getD (i - 5) 0
  else 0

/-- One appended feature row of `calculate_features`; note the stochastic
is stored divided by 100. -/
def mt_featureRow (highs lows closes volumes : List ℚ) (i : Nat) : List ℚ :=
  [mt_rsi closes i, mt_macd closes i, mt_bb_width closes i, mt_bb_position closes i,
   mt_sma_20_50 closes i, mt_sma_50_200 closes i, mt_momentum closes i,
   mt_vol_ratio volumes i, mt_atr highs lows closes i,
   mt_stochastic highs lows closes i / 100, mt_obv_change volumes i]

/-- Embedding of `train_multi_timeframe.calculate_features`: one feature
row per index `i ∈ [200, len(closes))`. -/
def calculate_features (highs lows closes volumes : List ℚ) : List (List ℚ) :=
  (List.range (closes.length - 200)).map (fun k => mt_featureRow highs lows closes volumes (200 + k))

/-! ### Indicator engine, train_lstm_signal.py (`lstm_` prefix)

Per-index embedding of the body of `calculate_technical_indicators`'s loop
(`for i in range(200, n)`).  For every such `i` the source's inner guards
`if i >= 14`, `if i >= 20`, `if i >= 26` are true, so they are dropped. -/

/-- `gains = sum(max(closes[j] - closes[j-1], 0) for j in range(i-14, i)) / 14`. -/
def lstm_gains (closes : List ℚ) (i : Nat) : ℚ :=
  ((List.range' (i - 14) 14).map (fun j => max (closes.getD j 0 - closes.getD (j - 1) 0) 0)).sum
    / 14

/-- `losses = sum(max(closes[j-1] - closes[j], 0) for j in range(i-14, i)) / 14`. -/
def lstm_losses (closes : List ℚ) (i : Nat) : ℚ :=
  ((List.range' (i - 14) 14).map (fun j => max (closes.getD (j - 1) 0 - closes.getD j 0) 0)).sum
    / 14

/-- Feature 0: RSI with the zero-loss case mapped to `100`. -/
def lstm_rsi (closes : List ℚ) (i : Nat) : ℚ :=
  if lstm_losses closes i = 0 then 100
  else 100 - 100 / (1 + lstm_gains closes i / lstm_losses closes i)

/-- Feature 1: `ema12 - ema26` over `closes[i-12:i]` and `closes[i-26:i]`
(plain means, no normalization — this variant has no denominator). -/
def lstm_macd (closes : List ℚ) (i : Nat) : ℚ :=
  meanQ (sliceD closes (i - 12) i) - meanQ (sliceD closes (i - 26) i)

/-- `sma = np.mean(closes[i-20:i])`. -/
def lstm_sma (closes : List ℚ) (i : Nat) : ℚ := meanQ (sliceD closes (i - 20) i)

/-- `std = np.std(closes[i-20:i])` with `ratSqrt` for the square root. -/
def lstm_std (closes : List ℚ) (i : Nat) : ℚ :=
  ratSqrt (meanQ ((sliceD closes (i - 20) i).map (fun x => (x - lstm_sma closes i) ^ 2)))

/-- `upper = sma + 2 * std`. -/
def lstm_upper (closes : List ℚ) (i : Nat) : ℚ := lstm_sma closes i + 2 * lstm_std closes i

/-- `lower = sma - 2 * std`. -/
def lstm_lower (closes : List ℚ) (i : Nat) : ℚ := lstm_sma closes i - 2 * lstm_std closes i

/-- Feature 2: `(upper - lower) / sma if sma != 0 else 0`. -/
def lstm_bb_width (closes : List ℚ) (i : Nat) : ℚ :=
  if lstm_sma closes i ≠ 0 then
    (lstm_upper closes i - lstm_lower closes i) / lstm_sma closes i
  else 0

/-- Feature 3: `(closes[i] - lower) / (upper - lower)` guarded to the
neutral `0.5` when `upper - lower == 0`. -/
def lstm_bb_position (closes : List ℚ) (i : Nat) : ℚ :=
  if lstm_upper closes i - lstm_lower closes i ≠ 0 then
    (closes.getD i 0 - lstm_lower closes i) / (lstm_upper closes i - lstm_lower closes i)
  else 1 / 2

/-- Feature 4: `(sma20 - sma50) / sma50 if sma50 != 0 else 0`. -/
def lstm_sma20_50 (closes : List ℚ) (i : Nat) : ℚ :=
  if meanQ (sliceD closes (i - 50) i) ≠ 0 then
    (meanQ (sliceD closes (i - 20) i) - meanQ (sliceD closes (i - 50) i))
      / meanQ (sliceD closes (i - 50) i)
  else 0

/-- Feature 5: `(sma50 - sma200) / sma200 if sma200 != 0 else 0`. -/
def lstm_sma50_200 (closes : List ℚ) (i : Nat) : ℚ :=
  if meanQ (sliceD closes (i - 200) i) ≠ 0 then
    (meanQ (sliceD closes (i - 50) i) - meanQ (sliceD closes (i - 200) i))
      / meanQ (sliceD closes (i - 200) i)
  else 0

/-- Feature 6: `(closes[i] - closes[i-5]) / closes[i-5]`, guarded to `0`. -/
def lstm_momentum (closes : List ℚ) (i : Nat) : ℚ :=
  if closes.getD (i - 5) 0 ≠ 0 then
    (closes.getD i 0 - closes.getD (i - 5) 0) / closes.getD (i - 5) 0
  else 0

/-- `vol_avg = np.mean(volumes[i-20:i])`. -/
def lstm_vol_avg (volumes : List ℚ) (i : Nat) : ℚ := meanQ (sliceD volumes (i - 20) i)

/-- Feature 7: `volumes[i] / vol_avg`, guarded to the neutral `1.0`. -/
def lstm_vol_ratio (volumes : List ℚ) (i : Nat) : ℚ :=
  if lstm_vol_avg volumes i ≠ 0 then volumes.getD i 0 / lstm_vol_avg volumes i else 1

/-- The trailing mean `np.mean([TR(j) for j in range(i-14, i)])`. -/
def lstm_atr_mean (highs lows closes : List ℚ) (i : Nat) : ℚ :=
  meanQ ((List.range' (i - 14) 14).map (fun j => trueRange highs lows closes j))

/-- Feature 8: `atr / closes[i] if closes[i] != 0 else 0` — the mean true
range over the trailing 14-candle window, normalized by the close.  (The
source also computes a single-candle `tr` here but never uses it.) -/
def lstm_atr (highs lows closes : List ℚ) (i : Nat) : ℚ :=
  if closes.getD i 0 ≠ 0 then lstm_atr_mean highs lows closes i / closes.getD i 0 else 0

/-- `lowest = np.min(lows[i-14:i])`. -/
def lstm_lowest (lows : List ℚ) (i : Nat) : ℚ := minQ (sliceD lows (i - 14) i)

/-- `highest = np.max(highs[i-14:i])`. -/
def lstm_highest (highs : List ℚ) (i : Nat) : ℚ := maxQ (sliceD highs (i - 14) i)

/-- Feature 9: `((closes[i] - lowest) / (highest - lowest)) * 100`,
guarded to the neutral `50` on a zero range. -/
def lstm_stochastic (highs lows closes : List ℚ) (i : Nat) : ℚ :=
  if lstm_highest highs i - lstm_lowest lows i ≠ 0 then
    (closes.getD i 0 - lstm_lowest lows i) / (lstm_highest highs i - lstm_lowest lows i) * 100
  else 50

/-- One feature row of `calculate_technical_indicators`; feature 10 (OBV
momentum) is the documented placeholder constant `0.0`. -/
def lstm_featureRow (highs lows closes volumes : List ℚ) (i : Nat) : List ℚ :=
  [lstm_rsi closes i, lstm_macd closes i, lstm_bb_width closes i, lstm_bb_position closes i,
   lstm_sma20_50 closes i, lstm_sma50_200 closes i, lstm_momentum closes i,
   lstm_vol_ratio volumes i, lstm_atr highs lows closes i,
   lstm_stochastic highs lows closes i, 0]

/-- Embedding of `train_lstm_signal.calculate_technical_indicators`:
`np.zeros((n, 11))` with rows `i ∈ [200, n)` filled by the loop. -/
def calculate_technical_indicators (highs lows closes volumes : List ℚ) : List (List ℚ) :=
  (List.range closes.length).map
    (fun i => if 200 ≤ i then lstm_featureRow highs lows closes volumes i else List.replicate 11 0)

/-! ### Window builder (train_lstm_signal.create_sequences) -/

/-- The anchor indices visited by
`for i in range(start_idx + seq_length, len(closes) - look_ahead)` with
`start_idx = 200`. -/
def cs_anchors (n seq_length look_ahead : Nat) : List Nat :=
  (List.range (n - look_ahead - (200 + seq_length))).map (fun k => 200 + seq_length + k)

/-- Embedding of `train_lstm_signal.create_sequences`: for each anchor `i`
the window `features[i-seq_length:i]` and the threshold-`0.15` label from
the forward return over `look_ahead` candles. -/
def create_sequences (features : List (List ℚ)) (closes : List ℚ)
    (seq_length look_ahead : Nat) : List (List (List ℚ)) × List Nat :=
  ((cs_anchors closes.length seq_length look_ahead).map
      (fun i => (features.drop (i - seq_length)).take seq_length),
   (cs_anchors closes.length seq_length look_ahead).map
      (fun i => assignLabel closes i look_ahead (15 / 100)))

/-! ### Checked indicator computation

Option-valued variants of the per-index computations where every floating
point hazard of the source is tracked explicitly: `cdiv` fails on a zero
denominator (Inf/NaN), `cmean`, `cmax`, `cmin` fail on an empty window
(numpy NaN or raise), `csqrt` fails on a negative radicand (NaN).  The
only divisions not routed through `cdiv` are by the literal constants
`100` and `14`, which are nonzero.  `checked = some (plain)` states that
the source computation never raises and never produces NaN/Inf. -/

/-- Division failing on a zero denominator. -/
def cdiv (a b : ℚ) : Option ℚ := if b = 0 then none else some (a / b)

/-- `np.mean`, failing on an empty window. -/
def cmean (l : List ℚ) : Option ℚ := if l.length = 0 then none else some (meanQ l)

/-- Square root, failing on a negative radicand. -/
def csqrt (q : ℚ) : Option ℚ := if q < 0 then none else some (ratSqrt q)

/-- `np.max`, failing on an empty window. -/
def cmax (l : List ℚ) : Option ℚ := if l.length = 0 then none else some (maxQ l)

/-- `np.min`, failing on an empty window. -/
def cmin (l : List ℚ) : Option ℚ := if l.length = 0 then none else some (minQ l)

/-- Checked `mt_rsi`. -/
def mt_rsiC (c : List ℚ) (i : Nat) : Option ℚ :=
  (if 0 < (mt_gains c i).length then cmean (mt_gains c i) else some 0).bind fun ag =>
  (if 0 < (mt_losses c i).length then cmean (mt_losses c i) else some 0).bind fun al =>
  (if al ≠ 0 then cdiv ag al else some 0).bind fun rs =>
  (cdiv 100 (1 + rs)).bind fun t => some (100 - t)

/-- Checked `mt_macd`. -/
def mt_macdC (c : List ℚ) (i : Nat) : Option ℚ :=
  (cmean (sliceD c (i - 11) (i + 1))).bind fun e12 =>
  (cmean (sliceD c (i - 25) (i + 1))).bind fun e26 =>
  if c.getD i 0 ≠ 0 then cdiv (e12 - e26) (c.getD i 0) else some 0

/-- Checked Bollinger pair `(bb_width, bb_position)`. -/
def mt_bbC (c : List ℚ) (i : Nat) : Option (ℚ × ℚ) :=
  (cmean (sliceD c (i - 19) (i + 1))).bind fun sma =>
  (cmean ((sliceD c (i - 19) (i + 1)).map (fun x => (x - sma) ^ 2))).bind fun v =>
  (csqrt v).bind fun std =>
  (if c.getD i 0 ≠ 0 then cdiv (sma + 2 * std - (sma - 2 * std)) (c.getD i 0)
    else some 0).bind fun w =>
  (if sma + 2 * std - (sma - 2 * std) ≠ 0 then
      cdiv (c.getD i 0 - (sma - 2 * std)) (sma + 2 * std - (sma - 2 * std))
    else some (1 / 2)).bind fun p =>
  some (w, p)

/-- Checked `mt_sma_20_50`. -/
def mt_sma_20_50C (c : List ℚ) (i : Nat) : Option ℚ :=
  (cmean (sliceD c (i - 19) (i + 1))).bind fun s20 =>
  (cmean (sliceD c (i - 49) (i + 1))).bind fun s50 =>
  some (if s20 > s50 then 1 else 0)

/-- Checked `mt_sma_50_200`. -/
def mt_sma_50_200C (c : List ℚ) (i : Nat) : Option ℚ :=
  (cmean (sliceD c (i - 49) (i + 1))).bind fun s50 =>
  (cmean (sliceD c (i - 199) (i + 1))).bind fun s200 =>
  some (if s50 > s200 then 1 else 0)

/-- Checked `mt_momentum`. -/
def mt_momentumC (c : List ℚ) (i : Nat) : Option ℚ :=
  if c.getD (i - 10) 0 ≠ 0 then cdiv (c.getD i 0 - c.getD (i - 10) 0) (c.getD (i - 10) 0)
  else some 0

/-- Checked `mt_vol_ratio`. -/
def mt_vol_ratioC (v : List ℚ) (i : Nat) : Option ℚ :=
  (cmean (sliceD v (i - 19) (i + 1))).bind fun m =>
  if m ≠ 0 then cdiv (v.getD i 0) m else some 1

/-- Checked `mt_atr`. -/
def mt_atrC (h l c : List ℚ) (i : Nat) : Option ℚ :=
  if c.getD i 0 ≠ 0 then cdiv (trueRange h l c i) (c.getD i 0) else some 0

/-- Checked `mt_stochastic`. -/
def mt_stochasticC (h l c : List ℚ) (i : Nat) : Option ℚ :=
  (cmax (sliceD h (i - 13) (i + 1))).bind fun hi14 =>
  (cmin (sliceD l (i - 13) (i + 1))).bind fun lo14 =>
  if hi14 - lo14 ≠ 0 then (cdiv (c.getD i 0 - lo14) (hi14 - lo14)).bind fun q => some (q * 100)
  else some 50

/-- Checked `mt_obv_change`. -/
def mt_obv_changeC (v : List ℚ) (i : Nat) : Option ℚ :=
  if v.getD (i - 5) 0 ≠ 0 then cdiv (v.getD i 0 - v.getD (i - 5) 0) (v.getD (i - 5) 0)
  else some 0

/-- Checked feature row of `train_multi_timeframe.calculate_features`. -/
def mt_featureRowChecked (h l c v : List ℚ) (i : Nat) : Option (List ℚ) :=
  (mt_rsiC c i).bind fun f0 =>
  (mt_macdC c i).bind fun f1 =>
  (mt_bbC c i).bind fun bb =>
  (mt_sma_20_50C c i).bind fun f4 =>
  (mt_sma_50_200C c i).bind fun f5 =>
  (mt_momentumC c i).bind fun f6 =>
  (mt_vol_ratioC v i).bind fun f7 =>
  (mt_atrC h l c i).bind fun f8 =>
  (mt_stochasticC h l c i).bind fun f9 =>
  (mt_obv_changeC v i).bind fun f10 =>
  some [f0, f1, bb.1, bb.2, f4, f5, f6, f7, f8, f9 / 100, f10]

/-- Checked `lstm_rsi` (the sums inside `lstm_gains`/`lstm_losses` are
divided by the nonzero literal `14`). -/
def lstm_rsiC (c : List ℚ) (i : Nat) : Option ℚ :=
  if lstm_losses c i = 0 then some 100
  else (cdiv (lstm_gains c i) (lstm_losses c i)).bind fun rs =>
    (cdiv 100 (1 + rs)).bind fun t => some (100 - t)

/-- Checked `lstm_macd`. -/
def lstm_macdC (c : List ℚ) (i : Nat) : Option ℚ :=
  (cmean (sliceD c (i - 12) i)).bind fun e12 =>
  (cmean (sliceD c (i - 26) i)).bind fun e26 =>
  some (e12 - e26)

/-- Checked lstm Bollinger pair `(bb_width, bb_position)`. -/
def lstm_bbC (c : List ℚ) (i : Nat) : Option (ℚ × ℚ) :=
  (cmean (sliceD c (i - 20) i)).bind fun sma =>
  (cmean ((sliceD c (i - 20) i).map (fun x => (x - sma) ^ 2))).bind fun v =>
  (csqrt v).bind fun std =>
  (if sma ≠ 0 then cdiv (sma + 2 * std - (sma - 2 * std)) sma else some 0).bind fun w =>
  (if sma + 2 * std - (sma - 2 * std) ≠ 0 then
      cdiv (c.getD i 0 - (sma - 2 * std)) (sma + 2 * std - (sma - 2 * std))
    else some (1 / 2)).bind fun p =>
  some (w, p)

/-- Checked `lstm_sma20_50`. -/
def lstm_sma20_50C (c : List ℚ) (i : Nat) : Option ℚ :=
  (cmean (sliceD c (i - 20) i)).bind fun s20 =>
  (cmean (sliceD c (i - 50) i)).bind fun s50 =>
  if s50 ≠ 0 then cdiv (s20 - s50) s50 else some 0

/-- Checked `lstm_sma50_200`. -/
def lstm_sma50_200C (c : List ℚ) (i : Nat) : Option ℚ :=
  (cmean (sliceD c (i - 50) i)).bind fun s50 =>
  (cmean (sliceD c (i - 200) i)).bind fun s200 =>
  if s200 ≠ 0 then cdiv (s50 - s200) s200 else some 0

/-- Checked `lstm_momentum`. -/
def lstm_momentumC (c : List ℚ) (i : Nat) : Option ℚ :=
  if c.getD (i - 5) 0 ≠ 0 then cdiv (c.getD i 0 - c.getD (i - 5) 0) (c.getD (i - 5) 0)
  else some 0

/-- Checked `lstm_vol_ratio`. -/
def lstm_vol_ratioC (v : List ℚ) (i : Nat) : Option ℚ :=
  (cmean (sliceD v (i - 20) i)).bind fun m =>
  if m ≠ 0 then cdiv (v.getD i 0) m else some 1

/-- Checked `lstm_atr`. -/
def lstm_atrC (h l c : List ℚ) (i : Nat) : Option ℚ :=
  (cmean ((List.range' (i - 14) 14).map (fun j => trueRange h l c j))).bind fun m =>
  if c.getD i 0 ≠ 0 then cdiv m (c.getD i 0) else some 0

/-- Checked `lstm_stochastic`. -/
def lstm_stochasticC (h l c : List ℚ) (i : Nat) : Option ℚ :=
  (cmin (sliceD l (i - 14) i)).bind fun lo =>
  (cmax (sliceD h (i - 14) i)).bind fun hi14 =>
  if hi14 - lo ≠ 0 then (cdiv (c.getD i 0 - lo) (hi14 - lo)).bind fun q => some (q * 100)
  else some 50

/-- Checked feature row of
`train_lstm_signal.calculate_technical_indicators`. -/
def lstm_featureRowChecked (h l c v : List ℚ) (i : Nat) : Option (List ℚ) :=
  (lstm_rsiC c i).bind fun f0 =>
  (lstm_macdC c i).bind fun f1 =>
  (lstm_bbC c i).bind fun bb =>
  (lstm_sma20_50C c i).bind fun f4 =>
  (lstm_sma50_200C c i).bind fun f5 =>
  (lstm_momentumC c i).bind fun f6 =>
  (lstm_vol_ratioC v i).bind fun f7 =>
  (lstm_atrC h l c i).bind fun f8 =>
  (lstm_stochasticC h l c i).bind fun f9 =>
  some [f0, f1, bb.1, bb.2, f4, f5, f6, f7, f8, f9, 0]

/-! ### Concrete series used as failing inputs -/

/-- A flat 201-candle series (the spec's degenerate constant series): no
losses anywhere, zero variance. -/
def flatSeries : List ℚ := List.replicate 201 1

/-- A 201-candle high series that is flat except for a spike to `3` at the
last index, giving the current candle a true range of `2` while every
earlier candle's true range is `0`. -/
def spikeHighs : List ℚ := List.replicate 200 1 ++ [3]

/-! ### Helper lemmas -/

theorem zip_map_fst_snd (l : List (ℤ × ℤ)) :
    (l.map Prod.fst).zip (l.map Prod.snd) = l := by
  induction l with
  | nil => rfl
  | cons p ps ih => simp [List.zip_cons_cons, ih]

theorem returns_sum (ps : List (ℤ × ℤ)) :
    (ps.map (fun pa => if pa.1 = pa.2 then (1 : ℚ) / 100 else -(1 / 100))).sum
      = (countCorrect ps : ℚ) / 100 - ((ps.length : ℚ) - (countCorrect ps : ℚ)) / 100 := by
  induction ps with
  | nil => simp [countCorrect]
  | cons p ps ih =>
    rcases Decidable.em (p.1 = p.2) with h | h
    · have hc : countCorrect (p :: ps) = countCorrect ps + 1 := by
        simp [countCorrect, List.filter_cons, h]
      simp only [List.map_cons, List.sum_cons, if_pos h, ih, hc, List.length_cons]
      push_cast
      ring
    · have hc : countCorrect (p :: ps) = countCorrect ps := by
        simp [countCorrect, List.filter_cons, h]
      simp only [List.map_cons, List.sum_cons, if_neg h, ih, hc, List.length_cons]
      push_cast
      ring

theorem sliceD_length (l : List ℚ) (a b : Nat) (hb : b ≤ l.length) :
    (sliceD l a b).length = b - a := by
  simp only [sliceD, List.length_take, List.length_drop]
  omega

theorem diffQ_length (l : List ℚ) : (diffQ l).length = l.length - 1 := by
  simp [diffQ]

theorem cmean_pos {l : List ℚ} (h : 0 < l.length) : cmean l = some (meanQ l) := by
  unfold cmean
  rw [if_neg (by omega)]

theorem cmax_pos {l : List ℚ} (h : 0 < l.length) : cmax l = some (maxQ l) := by
  unfold cmax
  rw [if_neg (by omega)]

theorem cmin_pos {l : List ℚ} (h : 0 < l.length) : cmin l = some (minQ l) := by
  unfold cmin
  rw [if_neg (by omega)]

theorem cdiv_ne {a b : ℚ} (h : b ≠ 0) : cdiv a b = some (a / b) := by
  unfold cdiv
  rw [if_neg h]

theorem meanQ_nonneg {l : List ℚ} (h : ∀ x ∈ l, 0 ≤ x) : 0 ≤ meanQ l := by
  unfold meanQ
  exact div_nonneg (List.sum_nonneg h) (Nat.cast_nonneg _)

theorem meanQ_gains_nonneg (c : List ℚ) (i : Nat) : 0 ≤ meanQ (mt_gains c i) := by
  apply meanQ_nonneg
  intro x hx
  unfold mt_gains at hx
  rcases List.mem_map.mp hx with ⟨d, _, rfl⟩
  exact le_max_right _ _

theorem meanQ_losses_nonneg (c : List ℚ) (i : Nat) : 0 ≤ meanQ (mt_losses c i) := by
  apply meanQ_nonneg
  intro x hx
  unfold mt_losses at hx
  rcases List.mem_map.mp hx with ⟨d, _, rfl⟩
  exact le_max_right _ _

theorem lstm_gains_nonneg (c : List ℚ) (i : Nat) : 0 ≤ lstm_gains c i := by
  unfold lstm_gains
  apply div_nonneg _ (by norm_num)
  apply List.sum_nonneg
  intro x hx
  rcases List.mem_map.mp hx with ⟨j, _, rfl⟩
  exact le_max_right _ _

theorem lstm_losses_nonneg (c : List ℚ) (i : Nat) : 0 ≤ lstm_losses c i := by
  unfold lstm_losses
  apply div_nonneg _ (by norm_num)
  apply List.sum_nonneg
  intro x hx
  rcases List.mem_map.mp hx with ⟨j, _, rfl⟩
  exact le_max_right _ _

theorem mt_rsiC_eq (c : List ℚ) (i : Nat) (h14 : 14 ≤ i) (hi : i < c.length) :
    mt_rsiC c i = some (mt_rsi c i) := by
  have hdl : (mt_deltas c i).length = 14 := by
    unfold mt_deltas
    rw [diffQ_length, sliceD_length _ _ _ (by omega)]
    omega
  have hg : 0 < (mt_gains c i).length := by
    unfold mt_gains
    rw [List.length_map]
    omega
  have hl : 0 < (mt_losses c i).length := by
    unfold mt_losses
    rw [List.length_map]
    omega
  have hag : mt_avg_gain c i = meanQ (mt_gains c i) := by
    unfold mt_avg_gain
    rw [if_pos hg]
  have hal : mt_avg_loss c i = meanQ (mt_losses c i) := by
    unfold mt_avg_loss
    rw [if_pos hl]
  unfold mt_rsiC
  rw [if_pos hg, if_pos hl, cmean_pos hg, cmean_pos hl]
  simp only [Option.some_bind]
  by_cases h0 : meanQ (mt_losses c i) = 0
  · rw [if_neg (not_not_intro h0)]
    simp only [Option.some_bind]
    rw [cdiv_ne (by norm_num : (1 : ℚ) + 0 ≠ 0)]
    simp only [Option.some_bind]
    unfold mt_rsi mt_rs
    rw [hal, if_neg (not_not_intro h0)]
  · rw [if_pos h0, cdiv_ne h0]
    simp only [Option.some_bind]
    have hrs : 0 ≤ meanQ (mt_gains c i) / meanQ (mt_losses c i) :=
      div_nonneg (meanQ_gains_nonneg c i) (meanQ_losses_nonneg c i)
    rw [cdiv_ne (by intro hz; linarith)]
    simp only [Option.some_bind]
    unfold mt_rsi mt_rs
    rw [hal, hag, if_pos h0]

theorem mt_macdC_eq (c : List ℚ) (i : Nat) (h25 : 25 ≤ i) (hi : i < c.length) :
    mt_macdC c i = some (mt_macd c i) := by
  have h12 : 0 < (sliceD c (i - 11) (i + 1)).length := by
    rw [sliceD_length _ _ _ (by omega)]
    omega
  have h26 : 0 < (sliceD c (i - 25) (i + 1)).length := by
    rw [sliceD_length _ _ _ (by omega)]
    omega
  unfold mt_macdC
  rw [cmean_pos h12, cmean_pos h26]
  simp only [Option.some_bind]
  unfold mt_macd
  by_cases h0 : c.getD i 0 = 0
  · rw [if_neg (not_not_intro h0), if_neg (not_not_intro h0)]
  · rw [if_pos h0, if_pos h0, cdiv_ne h0]

theorem mt_bbC_eq (c : List ℚ) (i : Nat) (h19 : 19 ≤ i) (hi : i < c.length) :
    mt_bbC c i = some (mt_bb_width c i, mt_bb_position c i) := by
  have hs : 0 < (sliceD c (i - 19) (i + 1)).length := by
    rw [sliceD_length _ _ _ (by omega)]
    omega
  unfold mt_bbC
  rw [cmean_pos hs]
  simp only [Option.some_bind]
  rw [cmean_pos (by rw [List.length_map]; exact hs)]
  simp only [Option.some_bind]
  have hv : 0 ≤ meanQ ((sliceD c (i - 19) (i + 1)).map
      (fun x => (x - meanQ (sliceD c (i - 19) (i + 1))) ^ 2)) := by
    apply meanQ_nonneg
    intro x hx
    rcases List.mem_map.mp hx with ⟨y, _, rfl⟩
    positivity
  unfold csqrt
  rw [if_neg (not_lt.mpr hv)]
  simp only [Option.some_bind]
  show (if c.getD i 0 ≠ 0 then
      cdiv (mt_bb_upper c i - mt_bb_lower c i) (c.getD i 0) else some 0).bind (fun w =>
    (if mt_bb_upper c i - mt_bb_lower c i ≠ 0 then
        cdiv (c.getD i 0 - mt_bb_lower c i) (mt_bb_upper c i - mt_bb_lower c i)
      else some (1 / 2)).bind fun p => some (w, p))
    = some (mt_bb_width c i, mt_bb_position c i)
  unfold mt_bb_width mt_bb_position
  split_ifs with h0 h1 h1
  · rw [cdiv_ne h0, cdiv_ne h1]
    simp only [Option.some_bind]
  · rw [cdiv_ne h0]
    simp only [Option.some_bind]
  · rw [cdiv_ne h1]
    simp only [Option.some_bind]
  · simp only [Option.some_bind]

theorem mt_sma_20_50C_eq (c : List ℚ) (i : Nat) (h49 : 49 ≤ i) (hi : i < c.length) :
    mt_sma_20_50C c i = some (mt_sma_20_50 c i) := by
  have h1 : 0 < (sliceD c (i - 19) (i + 1)).length := by
    rw [sliceD_length _ _ _ (by omega)]
    omega
  have h2 : 0 < (sliceD c (i - 49) (i + 1)).length := by
    rw [sliceD_length _ _ _ (by omega)]
    omega
  unfold mt_sma_20_50C
  rw [cmean_pos h1, cmean_pos h2]
  simp only [Option.some_bind]
  rfl

theorem mt_sma_50_200C_eq (c : List ℚ) (i : Nat) (h199 : 199 ≤ i) (hi : i < c.length) :
    mt_sma_50_200C c i = some (mt_sma_50_200 c i) := by
  have h1 : 0 < (sliceD c (i - 49) (i + 1)).length := by
    rw [sliceD_length _ _ _ (by omega)]
    omega
  have h2 : 0 < (sliceD c (i - 199) (i + 1)).length := by
    rw [sliceD_length _ _ _ (by omega)]
    omega
  unfold mt_sma_50_200C
  rw [cmean_pos h1, cmean_pos h2]
  simp only [Option.some_bind]
  rfl

theorem mt_momentumC_eq (c : List ℚ) (i : Nat) : mt_momentumC c i = some (mt_momentum c i) := by
  unfold mt_momentumC mt_momentum
  by_cases h0 : c.getD (i - 10) 0 = 0
  · rw [if_neg (not_not_intro h0), if_neg (not_not_intro h0)]
  · rw [if_pos h0, if_pos h0, cdiv_ne h0]

theorem mt_vol_ratioC_eq (v : List ℚ) (i : Nat) (h19 : 19 ≤ i) (hi : i < v.length) :
    mt_vol_ratioC v i = some (mt_vol_ratio v i) := by
  have hs : 0 < (sliceD v (i - 19) (i + 1)).length := by
    rw [sliceD_length _ _ _ (by omega)]
    omega
  unfold mt_vol_ratioC
  rw [cmean_pos hs]
  simp only [Option.some_bind]
  unfold mt_vol_ratio
  by_cases h0 : meanQ (sliceD v (i - 19) (i + 1)) = 0
  · rw [if_neg (not_not_intro h0), if_neg (not_not_intro h0)]
  · rw [if_pos h0, if_pos h0, cdiv_ne h0]

theorem mt_atrC_eq (h l c : List ℚ) (i : Nat) : mt_atrC h l c i = some (mt_atr h l c i) := by
  unfold mt_atrC mt_atr
  by_cases h0 : c.getD i 0 = 0
  · rw [if_neg (not_not_intro h0), if_neg (not_not_intro h0)]
  · rw [if_pos h0, if_pos h0, cdiv_ne h0]

theorem mt_stochasticC_eq (h l c : List ℚ) (i : Nat) (h13 : 13 ≤ i)
    (hih : i < h.length) (hil : i < l.length) :
    mt_stochasticC h l c i = some (mt_stochastic h l c i) := by
  have hsh : 0 < (sliceD h (i - 13) (i + 1)).length := by
    rw [sliceD_length _ _ _ (by omega)]
    omega
  have hsl : 0 < (sliceD l (i - 13) (i + 1)).length := by
    rw [sliceD_length _ _ _ (by omega)]
    omega
  unfold mt_stochasticC
  rw [cmax_pos hsh]
  simp only [Option.some_bind]
  rw [cmin_pos hsl]
  simp only [Option.some_bind]
  show (if mt_high14 h i - mt_low14 l i ≠ 0 then
      (cdiv (c.getD i 0 - mt_low14 l i) (mt_high14 h i - mt_low14 l i)).bind fun q =>
        some (q * 100)
    else some 50) = some (mt_stochastic h l c i)
  unfold mt_stochastic
  split_ifs with h0
  · rw [cdiv_ne h0]
    simp only [Option.some_bind]
  · rfl

theorem mt_obv_changeC_eq (v : List ℚ) (i : Nat) :
    mt_obv_changeC v i = some (mt_obv_change v i) := by
  unfold mt_obv_changeC mt_obv_change
  by_cases h0 : v.getD (i - 5) 0 = 0
  · rw [if_neg (not_not_intro h0), if_neg (not_not_intro h0)]
  · rw [if_pos h0, if_pos h0, cdiv_ne h0]

theorem mt_featureRowChecked_eq (h l c v : List ℚ) (i : Nat)
    (hw : 200 ≤ i) (hi : i < c.length) (hh : c.length ≤ h.length)
    (hl2 : c.length ≤ l.length) (hv : c.length ≤ v.length) :
    mt_featureRowChecked h l c v i = some (mt_featureRow h l c v i) := by
  unfold mt_featureRowChecked
  rw [mt_rsiC_eq c i (by omega) hi, mt_macdC_eq c i (by omega) hi,
    mt_bbC_eq c i (by omega) hi, mt_sma_20_50C_eq c i (by omega) hi,
    mt_sma_50_200C_eq c i (by omega) hi, mt_momentumC_eq c i,
    mt_vol_ratioC_eq v i (by omega) (by omega), mt_atrC_eq h l c i,
    mt_stochasticC_eq h l c i (by omega) (by omega) (by omega), mt_obv_changeC_eq v i]
  simp only [Option.some_bind]
  rfl

theorem lstm_rsiC_eq (c : List ℚ) (i : Nat) : lstm_rsiC c i = some (lstm_rsi c i) := by
  unfold lstm_rsiC lstm_rsi
  by_cases h0 : lstm_losses c i = 0
  · rw [if_pos h0, if_pos h0]
  · rw [if_neg h0, if_neg h0, cdiv_ne h0]
    simp only [Option.some_bind]
    have hrs : 0 ≤ lstm_gains c i / lstm_losses c i :=
      div_nonneg (lstm_gains_nonneg c i) (lstm_losses_nonneg c i)
    rw [cdiv_ne (by intro hz; linarith)]
    simp only [Option.some_bind]

theorem lstm_macdC_eq (c : List ℚ) (i : Nat) (h26 : 26 ≤ i) (hi : i ≤ c.length) :
    lstm_macdC c i = some (lstm_macd c i) := by
  have h1 : 0 < (sliceD c (i - 12) i).length := by
    rw [sliceD_length _ _ _ hi]
    omega
  have h2 : 0 < (sliceD c (i - 26) i).length := by
    rw [sliceD_length _ _ _ hi]
    omega
  unfold lstm_macdC
  rw [cmean_pos h1, cmean_pos h2]
  simp only [Option.some_bind]
  rfl

theorem lstm_bbC_eq (c : List ℚ) (i : Nat) (h20 : 20 ≤ i) (hi : i ≤ c.length) :
    lstm_bbC c i = some (lstm_bb_width c i, lstm_bb_position c i) := by
  have hs : 0 < (sliceD c (i - 20) i).length := by
    rw [sliceD_length _ _ _ hi]
    omega
  unfold lstm_bbC
  rw [cmean_pos hs]
  simp only [Option.some_bind]
  rw [cmean_pos (by rw [List.length_map]; exact hs)]
  simp only [Option.some_bind]
  have hv : 0 ≤ meanQ ((sliceD c (i - 20) i).map
      (fun x => (x - meanQ (sliceD c (i - 20) i)) ^ 2)) := by
    apply meanQ_nonneg
    intro x hx
    rcases List.mem_map.mp hx with ⟨y, _, rfl⟩
    positivity
  unfold csqrt
  rw [if_neg (not_lt.mpr hv)]
  simp only [Option.some_bind]
  show (if lstm_sma c i ≠ 0 then
      cdiv (lstm_upper c i - lstm_lower c i) (lstm_sma c i) else some 0).bind (fun w =>
    (if lstm_upper c i - lstm_lower c i ≠ 0 then
        cdiv (c.getD i 0 - lstm_lower c i) (lstm_upper c i - lstm_lower c i)
      else some (1 / 2)).bind fun p => some (w, p))
    = some (lstm_bb_width c i, lstm_bb_position c i)
  unfold lstm_bb_width lstm_bb_position
  split_ifs with h0 h1 h1
  · rw [cdiv_ne h0, cdiv_ne h1]
    simp only [Option.some_bind]
  · rw [cdiv_ne h0]
    simp only [Option.some_bind]
  · rw [cdiv_ne h1]
    simp only [Option.some_bind]
  · simp only [Option.some_bind]

theorem lstm_sma20_50C_eq (c : List ℚ) (i : Nat) (h50 : 50 ≤ i) (hi : i ≤ c.length) :
    lstm_sma20_50C c i = some (lstm_sma20_50 c i) := by
  have h1 : 0 < (sliceD c (i - 20) i).length := by
    rw [sliceD_length _ _ _ hi]
    omega
  have h2 : 0 < (sliceD c (i - 50) i).length := by
    rw [sliceD_length _ _ _ hi]
    omega
  unfold lstm_sma20_50C
  rw [cmean_pos h1, cmean_pos h2]
  simp only [Option.some_bind]
  unfold lstm_sma20_50
  by_cases h0 : meanQ (sliceD c (i - 50) i) = 0
  · rw [if_neg (not_not_intro h0), if_neg (not_not_intro h0)]
  · rw [if_pos h0, if_pos h0, cdiv_ne h0]

theorem lstm_sma50_200C_eq (c : List ℚ) (i : Nat) (h200 : 200 ≤ i) (hi : i ≤ c.length) :
    lstm_sma50_200C c i = some (lstm_sma50_200 c i) := by
  have h1 : 0 < (sliceD c (i - 50) i).length := by
    rw [sliceD_length _ _ _ hi]
    omega
  have h2 : 0 < (sliceD c (i - 200) i).length := by
    rw [sliceD_length _ _ _ hi]
    omega
  unfold lstm_sma50_200C
  rw [cmean_pos h1, cmean_pos h2]
  simp only [Option.some_bind]
  unfold lstm_sma50_200
  by_cases h0 : meanQ (sliceD c (i - 200) i) = 0
  · rw [if_neg (not_not_intro h0), if_neg (not_not_intro h0)]
  · rw [if_pos h0, if_pos h0, cdiv_ne h0]

theorem lstm_momentumC_eq (c : List ℚ) (i : Nat) :
    lstm_momentumC c i = some (lstm_momentum c i) := by
  unfold lstm_momentumC lstm_momentum
  by_cases h0 : c.getD (i - 5) 0 = 0
  · rw [if_neg (not_not_intro h0), if_neg (not_not_intro h0)]
  · rw [if_pos h0, if_pos h0, cdiv_ne h0]

theorem lstm_vol_ratioC_eq (v : List ℚ) (i : Nat) (h20 : 20 ≤ i) (hi : i ≤ v.length) :
    lstm_vol_ratioC v i = some (lstm_vol_ratio v i) := by
  have hs : 0 < (sliceD v (i - 20) i).length := by
    rw [sliceD_length _ _ _ hi]
    omega
  unfold lstm_vol_ratioC
  rw [cmean_pos hs]
  simp only [Option.some_bind]
  unfold lstm_vol_ratio lstm_vol_avg
  by_cases h0 : meanQ (sliceD v (i - 20) i) = 0
  · rw [if_neg (not_not_intro h0), if_neg (not_not_intro h0)]
  · rw [if_pos h0, if_pos h0, cdiv_ne h0]

theorem lstm_atrC_eq (h l c : List ℚ) (i : Nat) : lstm_atrC h l c i = some (lstm_atr h l c i) := by
  have hm : 0 < ((List.range' (i - 14) 14).map (fun j => trueRange h l c j)).length := by
    rw [List.length_map, List.length_range']
    omega
  unfold lstm_atrC
  rw [cmean_pos hm]
  simp only [Option.some_bind]
  unfold lstm_atr lstm_atr_mean
  by_cases h0 : c.getD i 0 = 0
  · rw [if_neg (not_not_intro h0), if_neg (not_not_intro h0)]
  · rw [if_pos h0, if_pos h0, cdiv_ne h0]

theorem lstm_stochasticC_eq (h l c : List ℚ) (i : Nat) (h14 : 14 ≤ i)
    (hih : i ≤ h.length) (hil : i ≤ l.length) :
    lstm_stochasticC h l c i = some (lstm_stochastic h l c i) := by
  have hsl : 0 < (sliceD l (i - 14) i).length := by
    rw [sliceD_length _ _ _ hil]
    omega
  have hsh : 0 < (sliceD h (i - 14) i).length := by
    rw [sliceD_length _ _ _ hih]
    omega
  unfold lstm_stochasticC
  rw [cmin_pos hsl]
  simp only [Option.some_bind]
  rw [cmax_pos hsh]
  simp only [Option.some_bind]
  show (if lstm_highest h i - lstm_lowest l i ≠ 0 then
      (cdiv (c.getD i 0 - lstm_lowest l i) (lstm_highest h i - lstm_lowest l i)).bind fun q =>
        some (q * 100)
    else some 50) = some (lstm_stochastic h l c i)
  unfold lstm_stochastic
  split_ifs with h0
  · rw [cdiv_ne h0]
    simp only [Option.some_bind]
  · rfl

theorem lstm_featureRowChecked_eq (h l c v : List ℚ) (i : Nat)
    (hw : 200 ≤ i) (hi : i < c.length) (hh : c.length ≤ h.length)
    (hl2 : c.length ≤ l.length) (hv : c.length ≤ v.length) :
    lstm_featureRowChecked h l c v i = some (lstm_featureRow h l c v i) := by
  unfold lstm_featureRowChecked
  rw [lstm_rsiC_eq c i, lstm_macdC_eq c i (by omega) (by omega),
    lstm_bbC_eq c i (by omega) (by omega), lstm_sma20_50C_eq c i (by omega) (by omega),
    lstm_sma50_200C_eq c i (by omega) (by omega), lstm_momentumC_eq c i,
    lstm_vol_ratioC_eq v i (by omega) (by omega), lstm_atrC_eq h l c i,
    lstm_stochasticC_eq h l c i (by omega) (by omega) (by omega)]
  simp only [Option.some_bind]
  rfl

theorem getD_replicate {α : Type} {a d : α} {n m : Nat} (h : m < n) :
    (List.replicate n a).getD m d = a := by
  rw [List.getD_eq_getElem _ _ (by simpa using h)]
  simp

theorem roundHalfEven_intCast (m : ℤ) : roundHalfEven (m : ℚ) = m := by
  unfold roundHalfEven
  rw [Int.floor_intCast]
  norm_num

theorem roundTo2_intCast (m : ℤ) : roundTo2 (m : ℚ) = (m : ℚ) := by
  unfold roundTo2
  have h : (100 : ℚ) * (m : ℚ) = ((100 * m : ℤ) : ℚ) := by push_cast; ring
  rw [h, roundHalfEven_intCast]
  push_cast
  ring

/-! ### Theorems -/

/-- C1: for every close series, anchor, horizon and (nonnegative) threshold,
the assigned label is BUY (`2`) exactly when the forward return is strictly
greater than the threshold, SELL (`0`) exactly when it is strictly less
than the negated threshold, and HOLD (`1`) otherwise; a forward return
exactly equal to the threshold yields HOLD.  The entries of
`create_labels` are exactly this policy at threshold `2.0` with anchors
starting at the warm-up index `200`. -/
theorem C1_label_policy (closes : List ℚ) (i look : Nat) (t : ℚ) (ht : 0 ≤ t) :
    (assignLabel closes i look t = 2 ↔ price_change closes i look > t) ∧
    (assignLabel closes i look t = 0 ↔ price_change closes i look < -t) ∧
    (assignLabel closes i look t = 1 ↔
      ¬ price_change closes i look > t ∧ ¬ price_change closes i look < -t) ∧
    (price_change closes i look = t → assignLabel closes i look t = 1) ∧
    (∀ k, k < (create_labels closes look).length →
      (create_labels closes look).getD k 7 = assignLabel closes (200 + k) look 2) := by
  have hlink : ∀ k, k < (create_labels closes look).length →
      (create_labels closes look).getD k 7 = assignLabel closes (200 + k) look 2 := by
    intro k hk
    unfold create_labels at hk ⊢
    rw [List.getD_eq_getElem _ _ hk, List.getElem_map, List.getElem_range]
  unfold assignLabel
  split_ifs with h1 h2
  · exact ⟨⟨fun _ => h1, fun _ => rfl⟩,
      ⟨fun h => by norm_num at h, fun h2 => absurd h2 (by intro hlt; linarith)⟩,
      ⟨fun h => by norm_num at h, fun h => absurd h1 h.1⟩,
      fun he => absurd h1 (by rw [he]; exact lt_irrefl t), hlink⟩
  · exact ⟨⟨fun h => by norm_num at h, fun h => absurd h h1⟩,
      ⟨fun _ => h2, fun _ => rfl⟩,
      ⟨fun h => by norm_num at h, fun h => absurd h2 h.2⟩,
      fun he => absurd h2 (by rw [he]; intro hlt; linarith), hlink⟩
  · exact ⟨⟨fun h => by norm_num at h, fun h => absurd h h1⟩,
      ⟨fun h => by norm_num at h, fun h => absurd h h2⟩,
      ⟨fun _ => ⟨h1, h2⟩, fun _ => rfl⟩,
      fun _ => rfl, hlink⟩

/-- Witness for C1 at concrete inputs: a forward return of exactly the
threshold (`+2%` with threshold `2.0`) yields HOLD, and `create_labels`
over a constant 203-candle series places the threshold-2 policy label at
anchor 200 in entry 0. -/
theorem C1_label_policy_witness :
    (0:ℚ) ≤ 2 ∧ assignLabel [100, 102] 0 1 2 = 1 ∧
      0 < (create_labels (List.replicate 203 (1:ℚ)) 1).length ∧
      (create_labels (List.replicate 203 (1:ℚ)) 1).getD 0 7 =
        assignLabel (List.replicate 203 (1:ℚ)) 200 1 2 :=
  ⟨by norm_num,
   (C1_label_policy [100, 102] 0 1 2 (by norm_num)).2.2.2.1
     (by norm_num [price_change, List.getD]),
   by simp [create_labels],
   (C1_label_policy (List.replicate 203 (1:ℚ)) 0 1 2 (by norm_num)).2.2.2.2 0
     (by simp [create_labels])⟩

/-- C2: for every non-empty sequence of (predicted, actual) direction pairs
with actual directions in `{+1, -1}`, `calculate_metrics` produces a record
whose accuracy is `100 * correct / total` (rounded to the script's two
decimals), whose simulated return is `+1` per correct pair and `-1` per
incorrect pair with no compounding, where `correct` counts exactly the
pairs with equal predicted and actual direction — so a predicted direction
of `0` never counts as correct. -/
theorem C2_evaluator_formula (ps : List (ℤ × ℤ)) (s a : String) (hne : ps ≠ [])
    (hact : ∀ p ∈ ps, p.2 = 1 ∨ p.2 = -1) :
    ∃ m, calculate_metrics (some (ps.map Prod.fst)) (ps.map Prod.snd) s a = some m ∧
      m.accuracy = roundTo2 (100 * (countCorrect ps : ℚ) / (ps.length : ℚ)) ∧
      m.total_return = (countCorrect ps : ℚ) - ((ps.length : ℚ) - (countCorrect ps : ℚ)) ∧
      m.num_predictions = ps.length ∧
      countCorrect ps = (ps.filter (fun pa => decide (pa.1 = pa.2))).length ∧
      (∀ p ∈ ps, p.1 = 0 → p.1 ≠ p.2) := by
  have hlen : (ps.map Prod.fst).length = ps.length := List.length_map _ _
  have hlen0 : ¬ (ps.map Prod.fst).length = 0 := by
    rw [hlen]
    exact fun h => hne (List.length_eq_zero.mp h)
  unfold calculate_metrics
  dsimp only
  rw [if_neg hlen0, zip_map_fst_snd]
  refine ⟨_, rfl, ?_, ?_, hlen, rfl, ?_⟩
  · show roundTo2 ((countCorrect ps : ℚ) / ((ps.map Prod.fst).length : ℚ) * 100)
      = roundTo2 (100 * (countCorrect ps : ℚ) / (ps.length : ℚ))
    rw [hlen]
    ring_nf
  · show roundTo2
        ((ps.map (fun pa => if pa.1 = pa.2 then (1 : ℚ) / 100 else -(1 / 100))).sum * 100)
      = (countCorrect ps : ℚ) - ((ps.length : ℚ) - (countCorrect ps : ℚ))
    rw [returns_sum]
    have harg : ((countCorrect ps : ℚ) / 100
          - ((ps.length : ℚ) - (countCorrect ps : ℚ)) / 100) * 100
        = (Int.cast (2 * (countCorrect ps : ℤ) - (ps.length : ℤ)) : ℚ) := by
      push_cast
      ring
    rw [harg, roundTo2_intCast]
    push_cast
    ring
  · intro p hp h0 h12
    rw [h0] at h12
    rcases hact p hp with h | h <;> rw [h] at h12 <;> norm_num at h12

/-- Witness for C2 on the concrete pairs `[(1,1), (0,-1), (-1,1)]`: one
correct pair out of three, including a zero prediction which counts as
incorrect. -/
theorem C2_evaluator_formula_witness :
    ([((1:ℤ), (1:ℤ)), (0, -1), (-1, 1)] : List (ℤ × ℤ)) ≠ [] ∧
    (∀ p ∈ ([((1:ℤ), (1:ℤ)), (0, -1), (-1, 1)] : List (ℤ × ℤ)), p.2 = 1 ∨ p.2 = -1) ∧
    (∃ m, calculate_metrics
        (some (([((1:ℤ), (1:ℤ)), (0, -1), (-1, 1)] : List (ℤ × ℤ)).map Prod.fst))
        (([((1:ℤ), (1:ℤ)), (0, -1), (-1, 1)] : List (ℤ × ℤ)).map Prod.snd) "AI Model" "BTC"
        = some m ∧
      m.accuracy = roundTo2 (100 * (countCorrect [((1:ℤ), (1:ℤ)), (0, -1), (-1, 1)] : ℚ)
          / ((([((1:ℤ), (1:ℤ)), (0, -1), (-1, 1)] : List (ℤ × ℤ))).length : ℚ)) ∧
      m.total_return = (countCorrect [((1:ℤ), (1:ℤ)), (0, -1), (-1, 1)] : ℚ)
          - (((([((1:ℤ), (1:ℤ)), (0, -1), (-1, 1)] : List (ℤ × ℤ))).length : ℚ)
            - (countCorrect [((1:ℤ), (1:ℤ)), (0, -1), (-1, 1)] : ℚ)) ∧
      m.num_predictions = ([((1:ℤ), (1:ℤ)), (0, -1), (-1, 1)] : List (ℤ × ℤ)).length ∧
      countCorrect [((1:ℤ), (1:ℤ)), (0, -1), (-1, 1)]
        = (([((1:ℤ), (1:ℤ)), (0, -1), (-1, 1)] : List (ℤ × ℤ)).filter
            (fun pa => decide (pa.1 = pa.2))).length ∧
      (∀ p ∈ ([((1:ℤ), (1:ℤ)), (0, -1), (-1, 1)] : List (ℤ × ℤ)), p.1 = 0 → p.1 ≠ p.2)) :=
  ⟨by simp, by decide,
   C2_evaluator_formula [(1, 1), (0, -1), (-1, 1)] "AI Model" "BTC" (by simp) (by decide)⟩

/-- C3: the window builder yields exactly
`max(0, matrix_length - seq_length - horizon)` windows (with
`matrix_length = len(closes) - 200`, the length of the warm-up-excluded
feature matrix), its anchors are strictly increasing (hence duplicate
free) with stride 1, and the window at anchor `i = 200 + seq_length + j`
is the contiguous slice of `seq_length` feature rows ending at the
anchor. -/
theorem C3_window_builder (features : List (List ℚ)) (closes : List ℚ) (seq look : Nat) :
    ((create_sequences features closes seq look).1.length : ℤ)
        = max 0 ((closes.length : ℤ) - 200 - seq - look) ∧
    (cs_anchors closes.length seq look).Pairwise (· < ·) ∧
    (∀ j, j < (cs_anchors closes.length seq look).length →
      (cs_anchors closes.length seq look).getD j 0 = 200 + seq + j ∧
      (create_sequences features closes seq look).1.getD j []
        = (features.drop (200 + j)).take seq) := by
  refine ⟨?_, ?_, ?_⟩
  · simp only [create_sequences, cs_anchors, List.length_map, List.length_range]
    omega
  · unfold cs_anchors
    exact List.Pairwise.map _ (fun a b h => by omega) (List.pairwise_lt_range _)
  · intro j hj
    constructor
    · unfold cs_anchors at hj ⊢
      rw [List.getD_eq_getElem _ _ hj, List.getElem_map]
      rw [List.getElem_range]
    · have hw : j < ((cs_anchors closes.length seq look).map
          (fun i => (features.drop (i - seq)).take seq)).length := by
        simpa using hj
      show ((cs_anchors closes.length seq look).map
          (fun i => (features.drop (i - seq)).take seq)).getD j [] = _
      rw [List.getD_eq_getElem _ _ hw, List.getElem_map]
      unfold cs_anchors
      rw [List.getElem_map, List.getElem_range]
      have harith : 200 + seq + j - seq = 200 + j := by omega
      rw [harith]

/-- Witness for C3 at a concrete 240-candle series with sequence length 30
and horizon 6: four windows, anchor 0 at index 230, window 0 ending
there. -/
theorem C3_window_builder_witness :
    0 < (cs_anchors (List.replicate 240 (1:ℚ)).length 30 6).length ∧
    (cs_anchors (List.replicate 240 (1:ℚ)).length 30 6).getD 0 0 = 200 + 30 + 0 ∧
    (create_sequences (List.replicate 240 (List.replicate 11 (0:ℚ)))
        (List.replicate 240 (1:ℚ)) 30 6).1.getD 0 []
      = ((List.replicate 240 (List.replicate 11 (0:ℚ))).drop (200 + 0)).take 30 :=
  ⟨by simp [cs_anchors],
   ((C3_window_builder (List.replicate 240 (List.replicate 11 (0:ℚ)))
      (List.replicate 240 (1:ℚ)) 30 6).2.2 0 (by simp [cs_anchors])).1,
   ((C3_window_builder (List.replicate 240 (List.replicate 11 (0:ℚ)))
      (List.replicate 240 (1:ℚ)) 30 6).2.2 0 (by simp [cs_anchors])).2⟩

/-- Counterexample for C9: on a 100-candle series (shorter than the
warm-up 200) the reference code silently returns an empty feature matrix,
and the sequence builder silently returns empty window and label lists —
no `InvalidInputError` or `InsufficientDataError` exists anywhere in the
code to be raised. -/
theorem C9_short_series_silent_empty :
    calculate_features (List.replicate 100 (1:ℚ)) (List.replicate 100 1)
        (List.replicate 100 1) (List.replicate 100 1) = [] ∧
    (create_sequences [] (List.replicate 100 (1:ℚ)) 30 6).1 = [] ∧
    (create_sequences [] (List.replicate 100 (1:ℚ)) 30 6).2 = [] :=
  ⟨rfl, rfl, rfl⟩

/-- C9 as amended: for every candle series shorter than warm-up the
feature computation returns the empty matrix, and for every close series
shorter than `warmup + seq_length + horizon` the window builder returns
empty window and label sequences; the failure is silent (the error types
named by the claim are design-mandated hardening absent from the code). -/
theorem C9_amended_silent_empty (highs lows closes volumes : List ℚ)
    (features : List (List ℚ)) (c2 : List ℚ) (seq look : Nat)
    (h : closes.length ≤ 200) (h2 : c2.length ≤ 200 + seq + look) :
    calculate_features highs lows closes volumes = [] ∧
    (create_sequences features c2 seq look).1 = [] ∧
    (create_sequences features c2 seq look).2 = [] := by
  have e1 : closes.length - 200 = 0 := by omega
  have e2 : c2.length - look - (200 + seq) = 0 := by omega
  refine ⟨?_, ?_, ?_⟩ <;> simp [calculate_features, create_sequences, cs_anchors, e1, e2]

/-- Witness for C9's amended statement at a concrete 100-candle series. -/
theorem C9_amended_silent_empty_witness :
    (List.replicate 100 (1:ℚ)).length ≤ 200 ∧
    (List.replicate 100 (1:ℚ)).length ≤ 200 + 30 + 6 ∧
    calculate_features (List.replicate 100 (1:ℚ)) (List.replicate 100 1)
        (List.replicate 100 1) (List.replicate 100 1) = [] ∧
    (create_sequences [] (List.replicate 100 (1:ℚ)) 30 6).1 = [] :=
  ⟨by simp, by simp,
   (C9_amended_silent_empty (List.replicate 100 (1:ℚ)) (List.replicate 100 1)
      (List.replicate 100 1) (List.replicate 100 1) [] (List.replicate 100 (1:ℚ)) 30 6
      (by simp) (by simp)).1,
   (C9_amended_silent_empty (List.replicate 100 (1:ℚ)) (List.replicate 100 1)
      (List.replicate 100 1) (List.replicate 100 1) [] (List.replicate 100 (1:ℚ)) 30 6
      (by simp) (by simp)).2.1⟩

/-- C5: the derived actual direction is `+1` exactly when the next close is
strictly greater than the current close and `-1` otherwise; in particular a
tie yields `-1` (never `0`, never `+1`), and every entry of the actuals
list built by the strategy loops of `backtest_models.py` is this
derivation. -/
theorem C5_actual_direction_tie (closes : List ℚ) (i : Nat) :
    (actualDirection closes i = 1 ↔ closes.getD (i + 1) 0 > closes.getD i 0) ∧
    (actualDirection closes i = -1 ↔ ¬ closes.getD (i + 1) 0 > closes.getD i 0) ∧
    (closes.getD (i + 1) 0 = closes.getD i 0 → actualDirection closes i = -1) ∧
    actualDirection closes i ≠ 0 ∧
    (∀ k, k < (strategyActuals closes).length →
      (strategyActuals closes).getD k 0 = actualDirection closes (30 + k)) := by
  have hlink : ∀ k, k < (strategyActuals closes).length →
      (strategyActuals closes).getD k 0 = actualDirection closes (30 + k) := by
    intro k hk
    unfold strategyActuals at hk ⊢
    rw [List.getD_eq_getElem _ _ hk, List.getElem_map, List.getElem_range]
  unfold actualDirection
  split_ifs with h
  · exact ⟨⟨fun _ => h, fun _ => rfl⟩,
      ⟨fun h1 => by norm_num at h1, fun hn => absurd h hn⟩,
      fun he => absurd h (by rw [he]; exact lt_irrefl _), by norm_num, hlink⟩
  · exact ⟨⟨fun h1 => by norm_num at h1, fun hgt => absurd hgt h⟩,
      ⟨fun _ => h, fun _ => rfl⟩, fun _ => rfl, by norm_num, hlink⟩

/-- Witness for C5 at a concrete tied series: on a constant 32-close series
the tie at index 30 resolves to `-1`, and entry 0 of the strategy actuals
list is that value. -/
theorem C5_actual_direction_tie_witness :
    actualDirection (List.replicate 32 (1:ℚ)) 30 = -1 ∧
      0 < (strategyActuals (List.replicate 32 (1:ℚ))).length ∧
      (strategyActuals (List.replicate 32 (1:ℚ))).getD 0 0 =
        actualDirection (List.replicate 32 (1:ℚ)) (30 + 0) :=
  ⟨(C5_actual_direction_tie (List.replicate 32 (1:ℚ)) 30).2.2.1 (by norm_num [List.getD]),
   by simp [strategyActuals],
   (C5_actual_direction_tie (List.replicate 32 (1:ℚ)) 0).2.2.2.2 0
     (by simp [strategyActuals])⟩

/-- C6: per-strategy aggregation is the arithmetic mean of per-asset
accuracies and per-asset returns (mean-of-means), and this diverges from a
pooled recomputation over combined samples: with one asset at 100%
accuracy on 1 sample and one at 0% on 2 samples, the code aggregates to
50% while the pooled accuracy is 100/3 %. -/
theorem C6_mean_of_means :
    (∀ (results : List Metrics) (strat : String),
        results.filter (fun m => decide (m.strategy = strat)) ≠ [] →
        aggAccuracy results strat
            = ((results.filter (fun m => decide (m.strategy = strat))).map
                (fun m => m.accuracy)).sum
              / ((results.filter (fun m => decide (m.strategy = strat))).length : ℚ) ∧
        aggReturn results strat
            = ((results.filter (fun m => decide (m.strategy = strat))).map
                (fun m => m.total_return)).sum
              / ((results.filter (fun m => decide (m.strategy = strat))).length : ℚ)) ∧
    (∃ m1 m2, calculate_metrics (some [1]) [1] "S" "A" = some m1 ∧
      calculate_metrics (some [1, 1]) [-1, -1] "S" "B" = some m2 ∧
      m1.accuracy = 100 ∧ m2.accuracy = 0 ∧
      aggAccuracy [m1, m2] "S" = 50 ∧
      pooledAccuracy [[(1, 1)], [(1, -1), (1, -1)]] = 100 / 3 ∧
      aggAccuracy [m1, m2] "S" ≠ pooledAccuracy [[(1, 1)], [(1, -1), (1, -1)]]) := by
  constructor
  · intro results strat _
    constructor
    · unfold aggAccuracy meanQ
      rw [List.length_map]
    · unfold aggReturn meanQ
      rw [List.length_map]
  · refine ⟨⟨"A", "S", 100, 1, 1⟩, ⟨"B", "S", 0, -2, 2⟩, ?_, ?_, rfl, rfl, ?_, ?_, ?_⟩
    · show calculate_metrics (some [1]) [1] "S" "A" = some ⟨"A", "S", 100, 1, 1⟩
      unfold calculate_metrics
      norm_num [roundTo2, roundHalfEven]
    · show calculate_metrics (some [1, 1]) [-1, -1] "S" "B" = some ⟨"B", "S", 0, -2, 2⟩
      unfold calculate_metrics
      norm_num [roundTo2, roundHalfEven]
    · unfold aggAccuracy meanQ
      norm_num
    · unfold pooledAccuracy countCorrect
      norm_num
    · unfold aggAccuracy pooledAccuracy meanQ countCorrect
      norm_num

/-- Witness for C6's universally quantified part at a concrete singleton
results list for strategy "S". -/
theorem C6_mean_of_means_witness :
    ([(⟨"A", "S", 100, 1, 1⟩ : Metrics)].filter (fun m => decide (m.strategy = "S")) ≠ []) ∧
      aggAccuracy [(⟨"A", "S", 100, 1, 1⟩ : Metrics)] "S"
        = (([(⟨"A", "S", 100, 1, 1⟩ : Metrics)].filter
            (fun m => decide (m.strategy = "S"))).map (fun m => m.accuracy)).sum
          / (([(⟨"A", "S", 100, 1, 1⟩ : Metrics)].filter
            (fun m => decide (m.strategy = "S"))).length : ℚ) :=
  ⟨by simp,
   (C6_mean_of_means.1 [(⟨"A", "S", 100, 1, 1⟩ : Metrics)] "S" (by simp)).1⟩

/-- C10: when a prediction sequence is absent (missing model or scaler
artifact) or empty, `calculate_metrics` returns no record instead of
dividing by a zero total; such a run contributes nothing to the results
list or to per-strategy aggregation, while runs with non-empty predictions
still produce records. -/
theorem C10_missing_artifact_skipped :
    (∀ (acts : List ℤ) (s a : String), calculate_metrics none acts s a = none) ∧
    (∀ (acts : List ℤ) (s a : String), calculate_metrics (some []) acts s a = none) ∧
    (∀ (xs ys : List Run) (r : Run), r.preds = none ∨ r.preds = some [] →
      collectResults (xs ++ r :: ys) = collectResults (xs ++ ys)) ∧
    (∀ (xs ys : List Run) (r : Run) (strat : String), r.preds = none ∨ r.preds = some [] →
      aggAccuracy (collectResults (xs ++ r :: ys)) strat
        = aggAccuracy (collectResults (xs ++ ys)) strat) ∧
    (∀ (preds acts : List ℤ) (s a : String), preds ≠ [] →
      ∃ m, calculate_metrics (some preds) acts s a = some m) := by
  have hnone : ∀ (r : Run), r.preds = none ∨ r.preds = some [] →
      calculate_metrics r.preds r.actuals r.strategy r.asset = none := by
    intro r hr
    rcases hr with h | h <;> rw [h] <;> rfl
  have hskip : ∀ (xs ys : List Run) (r : Run), r.preds = none ∨ r.preds = some [] →
      collectResults (xs ++ r :: ys) = collectResults (xs ++ ys) := by
    intro xs ys r hr
    unfold collectResults
    rw [List.filterMap_append, List.filterMap_append]
    congr 1
    rw [List.filterMap_cons, hnone r hr]
  refine ⟨fun _ _ _ => rfl, fun _ _ _ => rfl, hskip, ?_, ?_⟩
  · intro xs ys r strat hr
    rw [hskip xs ys r hr]
  · intro preds acts s a h
    unfold calculate_metrics
    dsimp only
    rw [if_neg (fun h0 => h (List.length_eq_zero.mp h0))]
    exact ⟨_, rfl⟩

/-- Witness for C10 at concrete runs: a run with an absent prediction list
is dropped from the collected results, and a run with one prediction still
produces a record. -/
theorem C10_missing_artifact_skipped_witness :
    ((⟨none, [], "S", "A"⟩ : Run).preds = none ∨ (⟨none, [], "S", "A"⟩ : Run).preds = some []) ∧
    collectResults ([] ++ (⟨none, [], "S", "A"⟩ : Run) :: []) = collectResults ([] ++ []) ∧
    ([(1:ℤ)] ≠ []) ∧
    (∃ m, calculate_metrics (some [(1:ℤ)]) [1] "S" "A" = some m) :=
  ⟨Or.inl rfl,
   C10_missing_artifact_skipped.2.2.1 [] [] ⟨none, [], "S", "A"⟩ (Or.inl rfl),
   by simp,
   C10_missing_artifact_skipped.2.2.2.2 [1] [1] "S" "A" (by simp)⟩

/-- C4 fails on `train_multi_timeframe.calculate_features`: on the flat
201-candle series the average loss over the RSI window is exactly `0`, yet
the computed RSI is `0`, not the claimed `100` (the `rs = ... if avg_loss
!= 0 else 0` guard sends `rs` to `0`, hence `rsi = 100 - 100/1 = 0`); the
sibling `train_lstm_signal` implementation returns `100` on the same
input, as the claim and spec state. -/
theorem C4_rsi_zero_loss_divergence :
    mt_avg_loss flatSeries 200 = 0 ∧
    mt_rsi flatSeries 200 = 0 ∧
    mt_rsi flatSeries 200 ≠ 100 ∧
    lstm_losses flatSeries 200 = 0 ∧
    lstm_rsi flatSeries 200 = 100 := by
  have hslice : sliceD flatSeries (200 - 14) (200 + 1) = List.replicate 15 1 := by
    simp [sliceD, flatSeries]
  have hdeltas : mt_deltas flatSeries 200 = (List.range 14).map (fun _ => (0:ℚ)) := by
    unfold mt_deltas
    rw [hslice]
    unfold diffQ
    simp only [List.length_replicate]
    apply List.map_congr_left
    intro j hj
    rw [List.mem_range] at hj
    rw [getD_replicate (by omega), getD_replicate (by omega)]
    ring
  have hloss : mt_avg_loss flatSeries 200 = 0 := by
    unfold mt_avg_loss mt_losses
    rw [hdeltas]
    simp [meanQ, List.map_map, Function.comp, List.map_const', List.sum_replicate]
  have hrs : mt_rs flatSeries 200 = 0 := by
    unfold mt_rs
    simp [hloss]
  have hrsi : mt_rsi flatSeries 200 = 0 := by
    unfold mt_rsi
    rw [hrs]
    norm_num
  have hlstmloss : lstm_losses flatSeries 200 = 0 := by
    unfold lstm_losses
    have hmap : (List.range' (200 - 14) 14).map
        (fun j => max (flatSeries.getD (j - 1) 0 - flatSeries.getD j 0) 0)
        = (List.range' (200 - 14) 14).map (fun _ => (0:ℚ)) := by
      apply List.map_congr_left
      intro j hj
      rw [List.mem_range'_1] at hj
      unfold flatSeries
      rw [getD_replicate (by omega), getD_replicate (by omega)]
      norm_num
    rw [hmap]
    simp [List.map_const', List.sum_replicate]
  refine ⟨hloss, hrsi, by rw [hrsi]; norm_num, hlstmloss, ?_⟩
  unfold lstm_rsi
  rw [if_pos hlstmloss]

/-- C8 fails on `train_multi_timeframe.calculate_features`: despite its
`# ATR (Average True Range)` comment, the code divides only the single
current candle's true range by the close.  On `spikeHighs` (flat except a
high of `3` at index 200) the current true range is `2`, so the
multi-timeframe "ATR" is `2`, while the trailing-14-candle mean of true
ranges — the claimed value, implemented by `train_lstm_signal.lstm_atr` —
is `0`. -/
theorem C8_atr_single_candle_divergence :
    trueRange spikeHighs flatSeries flatSeries 200 = 2 ∧
    mt_atr spikeHighs flatSeries flatSeries 200 = 2 ∧
    lstm_atr_mean spikeHighs flatSeries flatSeries 200 = 0 ∧
    lstm_atr spikeHighs flatSeries flatSeries 200 = 0 ∧
    mt_atr spikeHighs flatSeries flatSeries 200
      ≠ lstm_atr spikeHighs flatSeries flatSeries 200 := by
  have hflat : ∀ m, m < 201 → flatSeries.getD m 0 = 1 := by
    intro m hm
    unfold flatSeries
    exact getD_replicate hm
  have hspike200 : spikeHighs.getD 200 0 = 3 := by
    unfold spikeHighs
    rw [List.getD_append_right _ _ _ _ (by simp)]
    simp
  have hspikelt : ∀ m, m < 200 → spikeHighs.getD m 0 = 1 := by
    intro m hm
    unfold spikeHighs
    rw [List.getD_append _ _ _ _ (by simpa using hm)]
    exact getD_replicate hm
  have htr : trueRange spikeHighs flatSeries flatSeries 200 = 2 := by
    unfold trueRange
    rw [hspike200, hflat 200 (by omega), hflat 199 (by omega)]
    norm_num
  have hmean : lstm_atr_mean spikeHighs flatSeries flatSeries 200 = 0 := by
    unfold lstm_atr_mean
    have hmap : (List.range' (200 - 14) 14).map
        (fun j => trueRange spikeHighs flatSeries flatSeries j)
        = (List.range' (200 - 14) 14).map (fun _ => (0:ℚ)) := by
      apply List.map_congr_left
      intro j hj
      rw [List.mem_range'_1] at hj
      unfold trueRange
      rw [hspikelt j (by omega), hflat j (by omega), hflat (j - 1) (by omega)]
      norm_num
    rw [hmap]
    simp [meanQ, List.map_const', List.sum_replicate]
  have hatr : mt_atr spikeHighs flatSeries flatSeries 200 = 2 := by
    unfold mt_atr
    rw [hflat 200 (by omega), htr]
    norm_num
  have hlatr : lstm_atr spikeHighs flatSeries flatSeries 200 = 0 := by
    unfold lstm_atr
    rw [hflat 200 (by omega), hmean]
    norm_num
  exact ⟨htr, hatr, hmean, hlatr, by rw [hatr, hlatr]; norm_num⟩

/-- C7: for every candle series long enough to reach index `i` at or past
the warm-up (so in particular every series with `len >= warmup + 1`,
including degenerate constant-price or zero-volume series), both feature
computations complete without any division by zero, empty-window mean/
max/min, or negative radicand (`checked = some (plain)`, so no NaN/Inf
ever enters the feature row), and every guarded ratio resolves to its
documented neutral constant on a zero denominator: Bollinger position to
`0.5`, Stochastic to `50`, volume ratio to `1.0`, and momentum, the
MACD-proxy and the ATR ratio to `0`. -/
theorem C7_no_nan_neutral_guards (highs lows closes volumes : List ℚ) (i : Nat)
    (hw : 200 ≤ i) (hi : i < closes.length)
    (hh : closes.length ≤ highs.length) (hl : closes.length ≤ lows.length)
    (hv : closes.length ≤ volumes.length) :
    mt_featureRowChecked highs lows closes volumes i
      = some (mt_featureRow highs lows closes volumes i) ∧
    lstm_featureRowChecked highs lows closes volumes i
      = some (lstm_featureRow highs lows closes volumes i) ∧
    (mt_bb_upper closes i - mt_bb_lower closes i = 0 → mt_bb_position closes i = 1 / 2) ∧
    (mt_high14 highs i - mt_low14 lows i = 0 → mt_stochastic highs lows closes i = 50) ∧
    (meanQ (sliceD volumes (i - 19) (i + 1)) = 0 → mt_vol_ratio volumes i = 1) ∧
    (closes.getD (i - 10) 0 = 0 → mt_momentum closes i = 0) ∧
    (closes.getD i 0 = 0 →
      mt_macd closes i = 0 ∧ mt_atr highs lows closes i = 0 ∧ mt_bb_width closes i = 0) ∧
    (lstm_upper closes i - lstm_lower closes i = 0 → lstm_bb_position closes i = 1 / 2) ∧
    (lstm_highest highs i - lstm_lowest lows i = 0 → lstm_stochastic highs lows closes i = 50) ∧
    (lstm_vol_avg volumes i = 0 → lstm_vol_ratio volumes i = 1) ∧
    (closes.getD (i - 5) 0 = 0 → lstm_momentum closes i = 0) ∧
    (closes.getD i 0 = 0 → lstm_atr highs lows closes i = 0) := by
  refine ⟨mt_featureRowChecked_eq highs lows closes volumes i hw hi hh hl hv,
    lstm_featureRowChecked_eq highs lows closes volumes i hw hi hh hl hv,
    ?_, ?_, ?_, ?_, ?_, ?_, ?_, ?_, ?_, ?_⟩
  · intro h0
    unfold mt_bb_position
    rw [if_neg (not_not_intro h0)]
  · intro h0
    unfold mt_stochastic
    rw [if_neg (not_not_intro h0)]
  · intro h0
    unfold mt_vol_ratio
    rw [if_neg (not_not_intro h0)]
  · intro h0
    unfold mt_momentum
    rw [if_neg (not_not_intro h0)]
  · intro h0
    refine ⟨?_, ?_, ?_⟩
    · unfold mt_macd
      rw [if_neg (not_not_intro h0)]
    · unfold mt_atr
      rw [if_neg (not_not_intro h0)]
    · unfold mt_bb_width
      rw [if_neg (not_not_intro h0)]
  · intro h0
    unfold lstm_bb_position
    rw [if_neg (not_not_intro h0)]
  · intro h0
    unfold lstm_stochastic
    rw [if_neg (not_not_intro h0)]
  · intro h0
    unfold lstm_vol_ratio
    rw [if_neg (not_not_intro h0)]
  · intro h0
    unfold lstm_momentum
    rw [if_neg (not_not_intro h0)]
  · intro h0
    unfold lstm_atr
    rw [if_neg (not_not_intro h0)]

/-- Witness for C7 on the degenerate constant series (zero variance, zero
range, flat volume) at the first post-warm-up index: both checked
computations complete. -/
theorem C7_no_nan_neutral_guards_witness :
    (200 ≤ 200 ∧ 200 < flatSeries.length ∧ flatSeries.length ≤ flatSeries.length) ∧
    mt_featureRowChecked flatSeries flatSeries flatSeries flatSeries 200
      = some (mt_featureRow flatSeries flatSeries flatSeries flatSeries 200) ∧
    lstm_featureRowChecked flatSeries flatSeries flatSeries flatSeries 200
      = some (lstm_featureRow flatSeries flatSeries flatSeries flatSeries 200) :=
  ⟨⟨le_refl 200, by simp [flatSeries], le_refl _⟩,
   (C7_no_nan_neutral_guards flatSeries flatSeries flatSeries flatSeries 200
      (le_refl 200) (by simp [flatSeries]) (le_refl _) (le_refl _) (le_refl _)).1,
   (C7_no_nan_neutral_guards flatSeries flatSeries flatSeries flatSeries 200
      (le_refl 200) (by simp [flatSeries]) (le_refl _) (le_refl _) (le_refl _)).2.1⟩

end Compass
